import Mathlib

/-!
# SAM2695Synth: a MIDI command formatter over a serial transport

Shallow embedding of `src/src/SAM2695Synth.cpp`.

* `uint8_t` values are natural numbers below 256; every conversion to
  `uint8_t` (a parameter of that type, a cast, a store into a member) is an
  explicit reduction modulo 256 (`u8`, `u8i`).
* A pointer to a serial object is an `Option Nat`: `none` is `nullptr`,
  `some k` the serial object number `k`.
* What the driver does to the outside world (calls of `begin` and `write` on
  a serial object, `Serial.println`) is recorded, in order, in the `trace`
  component of the state.
* The header `SAM2695Synth.h` is not among the sources. Its constants are
  given below with the values the specification states; `BPM_STEP`,
  `VELOCITY_STEP` and `BPM_DEFAULT` are parameters of the functions that use
  them.
-/

/-! ## Machine integers -/

/-- Conversion of a non-negative integer value to `uint8_t`. -/
def u8 (n : Nat) : Nat := n % 256

/-- Conversion of an `int` value (possibly negative) to `uint8_t`. -/
def u8i (z : Int) : Nat := (z % 256).toNat

/-! ## The outside world -/

/-- A serial object the driver can write to: a `HardwareSerial` or a
`SoftwareSerial`, identified by a number. -/
inductive Port
  | hardware (serial : Nat)
  | software (serial : Nat)
deriving DecidableEq, Repr

/-- One call the driver makes on the outside world. -/
inductive Event
  | hwBegin (serial : Nat) (baud : Int) (RX TX : Nat)
  | swBegin (serial : Nat) (baud : Int)
  | write (port : Port) (bytes : List Nat)
  | println (text : String)
deriving DecidableEq, Repr

/-- The byte arrays written to one serial object, oldest first. -/
def received (q : Port) : List Event → List (List Nat)
  | [] => []
  | Event.write p bytes :: rest =>
      if p = q then bytes :: received q rest else received q rest
  | _ :: rest => received q rest

/-- Every write of the trace, on whichever serial object, oldest first. -/
def writes : List Event → List (Port × List Nat)
  | [] => []
  | Event.write p bytes :: rest => (p, bytes) :: writes rest
  | _ :: rest => writes rest

/-- The byte stream one serial object has received: its messages
concatenated, oldest first. -/
def stream (q : Port) (tr : List Event) : List Nat :=
  (received q tr).foldr (fun msg acc => msg ++ acc) []

/-- The status nibble (high) and the channel nibble (low) of the first byte
of a message. -/
def statusNibbles (msg : List Nat) : Option (Nat × Nat) :=
  msg.head?.map (fun b => (b / 16, b % 16))

/-! ## Constants of the missing header -/

/-- Modelled from the spec: `MIDI_COMMAND_ON` of the header SAM2695Synth.h
(not among the sources), the standard MIDI note-on status. -/
def MIDI_COMMAND_ON : Nat := 0x90

/-- Modelled from the spec: `MIDI_COMMAND_OFF` of the header SAM2695Synth.h
(not among the sources), the standard MIDI note-off status. -/
def MIDI_COMMAND_OFF : Nat := 0x80

/-- Modelled from the spec: `MIDI_CMD_CONTROL_CHANGE` of the header
SAM2695Synth.h (not among the sources), the MIDI control-change status. -/
def MIDI_CMD_CONTROL_CHANGE : Nat := 0xB0

/-- Modelled from the spec: `MIDI_CMD_PROGRAM_CHANGE` of the header
SAM2695Synth.h (not among the sources), the MIDI program-change status. -/
def MIDI_CMD_PROGRAM_CHANGE : Nat := 0xC0

/-- Modelled from the spec: `BPM_MIN` of the header SAM2695Synth.h (not among
the sources); the comment of `setBpm` gives the value 40. -/
def BPM_MIN : Nat := 40

/-- Modelled from the spec: `BPM_MAX` of the header SAM2695Synth.h (not among
the sources); the comment of `setBpm` gives the value 240. -/
def BPM_MAX : Nat := 240

/-- Modelled from the spec: `NOTE_B0` of the header SAM2695Synth.h (not among
the sources), the MIDI number of the note B0. -/
def NOTE_B0 : Nat := 23

/-- Modelled from the spec: `NOTE_C8` of the header SAM2695Synth.h (not among
the sources), the MIDI number of the note C8. -/
def NOTE_C8 : Nat := 108

/-- Modelled from the spec: `VELOCITY_MIN` of the header SAM2695Synth.h (not
among the sources). -/
def VELOCITY_MIN : Nat := 0

/-- Modelled from the spec: `VELOCITY_MAX` of the header SAM2695Synth.h (not
among the sources). -/
def VELOCITY_MAX : Nat := 127

/-- Modelled from the spec: `CHANNEL_0` of the header SAM2695Synth.h (not
among the sources), the first MIDI channel. -/
def CHANNEL_0 : Nat := 0

/-- Modelled from the spec: `CHANNEL_15` of the header SAM2695Synth.h (not
among the sources), the last MIDI channel. -/
def CHANNEL_15 : Nat := 15

/-- Modelled from the spec: one note slot of the chord structure declared in
the header SAM2695Synth.h (not among the sources): a pitch and the flag
`isOn`. -/
structure note where
  pitch : Nat
  isOn : Bool
deriving DecidableEq, Repr

/-- Modelled from the spec: the chord structure `musicData` declared in the
header SAM2695Synth.h (not among the sources): a channel, a fixed-size array
of note slots (its size is the length of the list) and a velocity. -/
structure musicData where
  channel : Nat
  notes : List note
  velocity : Nat
deriving DecidableEq, Repr

/-! ## The driver -/

/-- The text `sendCMD` prints when no serial object is configured. -/
def noTransportWarning : String :=
  "hardware serial and software serial error! please check!"

/-- State of the driver: the members of the class `SAM2695Synth`, and the
trace of its calls on the outside world. -/
structure SAM2695Synth where
  _serial : Option Nat
  _softSerial : Option Nat
  _pitch : Nat
  _velocity : Nat
  _bpm : Nat
  trace : List Event
deriving DecidableEq, Repr

/-- The members of type `uint8_t` hold 8-bit values. -/
def SAM2695Synth.WellFormed (s : SAM2695Synth) : Prop :=
  s._pitch < 256 ∧ s._velocity < 256 ∧ s._bpm < 256

instance (s : SAM2695Synth) : Decidable s.WellFormed := by
  unfold SAM2695Synth.WellFormed
  exact inferInstance

/-- The constructor `SAM2695Synth::SAM2695Synth()`; `BPM_DEFAULT` comes from
the missing header. -/
def SAM2695Synth.new (BPM_DEFAULT : Nat) : SAM2695Synth :=
  { _serial := none
    _softSerial := none
    _pitch := 60
    _velocity := 90
    _bpm := u8 BPM_DEFAULT
    trace := [] }

/-- The overload `begin(HardwareSerial* serial, int baud, uint8_t RX, uint8_t TX)`.
The member call through `_serial` has no defined result for a null pointer:
the model returns `none` there. -/
def SAM2695Synth.begin_HardwareSerial (s : SAM2695Synth) (serial : Option Nat)
    (baud : Int) (RX TX : Nat) : Option SAM2695Synth :=
  let s1 := { s with _serial := serial }
  match s1._serial with
  | none => none
  | some h => some { s1 with trace := s1.trace ++ [Event.hwBegin h baud (u8 RX) (u8 TX)] }

/-- The overload `begin(SoftwareSerial *serial, int baud)`. -/
def SAM2695Synth.begin_SoftwareSerial (s : SAM2695Synth) (serial : Option Nat)
    (baud : Int) : SAM2695Synth :=
  let s1 := { s with _softSerial := serial }
  match s1._softSerial with
  | some w => { s1 with trace := s1.trace ++ [Event.swBegin w baud] }
  | none => s1

/-- The member `sendCMD(byte* cmd, int len)`: three independent tests. -/
def SAM2695Synth.sendCMD (s : SAM2695Synth) (cmd : List Nat) (len : Nat) : SAM2695Synth :=
  let s1 :=
    match s._serial with
    | some h => { s with trace := s.trace ++ [Event.write (Port.hardware h) (cmd.take len)] }
    | none => s
  let s2 :=
    match s1._softSerial with
    | some w => { s1 with trace := s1.trace ++ [Event.write (Port.software w) (cmd.take len)] }
    | none => s1
  if s2._serial = none ∧ s2._softSerial = none then
    { s2 with trace := s2.trace ++ [Event.println noTransportWarning] }
  else s2

/-- The member `setInstrument(uint8_t bank, uint8_t channel, uint8_t value)`. -/
def SAM2695Synth.setInstrument (s : SAM2695Synth) (bank channel value : Nat) : SAM2695Synth :=
  let bank := u8 bank
  let channel := u8 channel
  let value := u8 value
  let CMD_CONTROL_CHANGE_1 := [u8 (MIDI_CMD_CONTROL_CHANGE ||| (channel &&& 0x0f)), 0x00, bank]
  let s1 := s.sendCMD CMD_CONTROL_CHANGE_1 CMD_CONTROL_CHANGE_1.length
  let CMD_PROGRAM_CHANGE_2 := [u8 (MIDI_CMD_PROGRAM_CHANGE ||| (channel &&& 0x0f)), value]
  s1.sendCMD CMD_PROGRAM_CHANGE_2 CMD_PROGRAM_CHANGE_2.length

/-- The member `setNoteOn(uint8_t channel, uint8_t pitch, uint8_t velocity)`.
The two tests compare the `int` value -1 with the parameter promoted to
`int`. -/
def SAM2695Synth.setNoteOn (s : SAM2695Synth) (channel pitch velocity : Nat) : SAM2695Synth :=
  let channel := u8 channel
  let pitch := u8 pitch
  let velocity := u8 velocity
  let pitch := if (-1 : Int) = (pitch : Int) then s._pitch else pitch
  let velocity := if (-1 : Int) = (velocity : Int) then s._velocity else velocity
  let CMD_NOTE_ON := [u8 (MIDI_COMMAND_ON ||| (channel &&& 0x0f)), pitch, velocity]
  s.sendCMD CMD_NOTE_ON CMD_NOTE_ON.length

/-- The member `setNoteOff(uint8_t channel, uint8_t pitch, uint8_t velocity)`;
the body never reads `velocity`. -/
def SAM2695Synth.setNoteOff (s : SAM2695Synth) (channel pitch velocity : Nat) : SAM2695Synth :=
  let channel := u8 channel
  let pitch := u8 pitch
  let _unread := u8 velocity
  let CMD_NOTE_OFF := [u8 (MIDI_COMMAND_OFF ||| (channel &&& 0x0f)), pitch, 0x00]
  s.sendCMD CMD_NOTE_OFF CMD_NOTE_OFF.length

/-- The member `setAllNotesOff(uint8_t channel)`. -/
def SAM2695Synth.setAllNotesOff (s : SAM2695Synth) (channel : Nat) : SAM2695Synth :=
  let channel := u8 channel
  let CMD_CONTROL_CHANGE := [u8 (MIDI_CMD_CONTROL_CHANGE ||| (channel &&& 0x0f)), 0x7b, 0x00]
  s.sendCMD CMD_CONTROL_CHANGE CMD_CONTROL_CHANGE.length

/-- The member `playChord(const musicData& chord)`: the loop visits the note
slots in ascending index order. -/
def SAM2695Synth.playChord (s : SAM2695Synth) (chord : musicData) : SAM2695Synth :=
  chord.notes.foldl
    (fun acc n => if n.isOn then acc.setNoteOn chord.channel n.pitch chord.velocity else acc) s

/-- The member `setPitch(uint8_t pitch)`. -/
def SAM2695Synth.setPitch (s : SAM2695Synth) (pitch : Nat) : SAM2695Synth :=
  { s with _pitch := u8 pitch }

/-- The member `getPitch()`. -/
def SAM2695Synth.getPitch (s : SAM2695Synth) : Nat := s._pitch

/-- The member `setVolume(uint8_t channel, uint8_t level)`. -/
def SAM2695Synth.setVolume (s : SAM2695Synth) (channel level : Nat) : SAM2695Synth :=
  let channel := u8 channel
  let level := u8 level
  let CMD_CONTROL_CHANGE := [u8 (MIDI_CMD_CONTROL_CHANGE ||| (channel &&& 0x0f)), 0x07, level]
  s.sendCMD CMD_CONTROL_CHANGE CMD_CONTROL_CHANGE.length

/-- The member `increasePitch()`: the increment is done on the `uint8_t`
member, then the upper bound is tested. -/
def SAM2695Synth.increasePitch (s : SAM2695Synth) : SAM2695Synth :=
  let s1 := { s with _pitch := u8 (s._pitch + 1) }
  if s1._pitch > NOTE_C8 then { s1 with _pitch := u8 NOTE_C8 } else s1

/-- The member `decreasePitch()`: the decrement is done on the `uint8_t`
member, then the lower bound is tested. -/
def SAM2695Synth.decreasePitch (s : SAM2695Synth) : SAM2695Synth :=
  let s1 := { s with _pitch := u8i ((s._pitch : Int) - 1) }
  if s1._pitch < NOTE_B0 then { s1 with _pitch := u8 NOTE_B0 } else s1

/-- The member `increaseVelocity()`; `VELOCITY_STEP` comes from the missing
header. -/
def SAM2695Synth.increaseVelocity (s : SAM2695Synth) (VELOCITY_STEP : Nat) : SAM2695Synth :=
  let s1 := { s with _velocity := u8 (s._velocity + VELOCITY_STEP) }
  let s2 := if s1._velocity > VELOCITY_MAX then { s1 with _velocity := u8 VELOCITY_MAX } else s1
  (List.range' CHANNEL_0 (CHANNEL_15 + 1 - CHANNEL_0)).foldl
    (fun acc i => acc.setVolume i acc._velocity) s2

/-- The member `decreaseVelocity()`; `VELOCITY_STEP` comes from the missing
header. -/
def SAM2695Synth.decreaseVelocity (s : SAM2695Synth) (VELOCITY_STEP : Nat) : SAM2695Synth :=
  let s1 := { s with _velocity := u8i ((s._velocity : Int) - (VELOCITY_STEP : Int)) }
  let s2 := if s1._velocity < VELOCITY_MIN then { s1 with _velocity := u8 VELOCITY_MIN } else s1
  (List.range' CHANNEL_0 (CHANNEL_15 + 1 - CHANNEL_0)).foldl
    (fun acc i => acc.setVolume i acc._velocity) s2

/-- The member `setBpm(uint8_t bpm)`. -/
def SAM2695Synth.setBpm (s : SAM2695Synth) (bpm : Nat) : SAM2695Synth :=
  let bpm := u8 bpm
  let bpm := if bpm < BPM_MIN then BPM_MIN else if bpm > BPM_MAX then BPM_MAX else bpm
  { s with _bpm := u8 bpm }

/-- The member `increaseBpm()`: the sum is an `int`, converted to `uint8_t`
by the call of `setBpm`; `BPM_STEP` comes from the missing header. -/
def SAM2695Synth.increaseBpm (s : SAM2695Synth) (BPM_STEP : Nat) : SAM2695Synth :=
  s.setBpm (u8i ((s._bpm : Int) + (BPM_STEP : Int)))

/-- The member `decreaseBpm()`: the difference is an `int`, converted to
`uint8_t` by the call of `setBpm`; `BPM_STEP` comes from the missing header. -/
def SAM2695Synth.decreaseBpm (s : SAM2695Synth) (BPM_STEP : Nat) : SAM2695Synth :=
  s.setBpm (u8i ((s._bpm : Int) - (BPM_STEP : Int)))

/-- The member `getBpm()`. -/
def SAM2695Synth.getBpm (s : SAM2695Synth) : Nat := s._bpm

/-! ## Derived notions used to state the properties -/

/-- The serial objects a state has configured: the hardware one first, as
`sendCMD` tests them. -/
def SAM2695Synth.ports (s : SAM2695Synth) : List Port :=
  (match s._serial with | some h => [Port.hardware h] | none => []) ++
  (match s._softSerial with | some w => [Port.software w] | none => [])

/-- One call of either overload of `begin`. -/
inductive BeginCall
  | hardware (serial : Nat) (baud : Int) (RX TX : Nat)
  | software (serial : Option Nat) (baud : Int)
deriving DecidableEq, Repr

/-- Whether the call is of the hardware overload. -/
def BeginCall.isHardware : BeginCall → Bool
  | BeginCall.hardware _ _ _ _ => true
  | BeginCall.software _ _ => false

/-- Run a sequence of `begin` calls, first to last; a call of the hardware
overload that fails stops the run with `none`. -/
def SAM2695Synth.runBegins (s : SAM2695Synth) : List BeginCall → Option SAM2695Synth
  | [] => some s
  | BeginCall.hardware serial baud RX TX :: rest =>
      match s.begin_HardwareSerial (some serial) baud RX TX with
      | some s1 => s1.runBegins rest
      | none => none
  | BeginCall.software serial baud :: rest =>
      (s.begin_SoftwareSerial serial baud).runBegins rest

/-- The pitch, velocity, tempo and both transport references of two states
agree. -/
def SAM2695Synth.sameMembers (s t : SAM2695Synth) : Prop :=
  t._serial = s._serial ∧ t._softSerial = s._softSerial ∧
  t._pitch = s._pitch ∧ t._velocity = s._velocity ∧ t._bpm = s._bpm

/-- Between the states `s` and `t` the members are unchanged, no byte was
written to any serial object, and exactly `k` warnings were printed. -/
def SAM2695Synth.onlyWarned (s t : SAM2695Synth) (k : Nat) : Prop :=
  s.sameMembers t ∧ writes t.trace = writes s.trace ∧
  t.trace = s.trace ++ List.replicate k (Event.println noTransportWarning)

/-- The hardware reference after a sequence of `begin` calls, starting from
the reference `cur`: the serial object of the last hardware call, if any. -/
def hardwareAfter (cur : Option Nat) : List BeginCall → Option Nat
  | [] => cur
  | BeginCall.hardware serial _ _ _ :: rest => hardwareAfter (some serial) rest
  | BeginCall.software _ _ :: rest => hardwareAfter cur rest

/-- The software reference after a sequence of `begin` calls, starting from
the reference `cur`: the argument of the last software call, if any. -/
def softwareAfter (cur : Option Nat) : List BeginCall → Option Nat
  | [] => cur
  | BeginCall.hardware _ _ _ _ :: rest => softwareAfter cur rest
  | BeginCall.software serial _ :: rest => softwareAfter serial rest

/-- The state reached from the constructed state by `begin(&Serial2, 115200, 42, 43)`
followed by `begin(&softSerial, 31250)`, the serial objects numbered 2 and 1. -/
def begunBoth : SAM2695Synth :=
  { _serial := some 2, _softSerial := some 1, _pitch := 60, _velocity := 90, _bpm := 120,
    trace := [Event.hwBegin 2 115200 42 43, Event.swBegin 1 31250] }

/-- Between the states `s` and `t` nothing was added to the trace and every
member other than the pitch is unchanged. -/
def SAM2695Synth.onlyPitchChanged (s t : SAM2695Synth) : Prop :=
  t.trace = s.trace ∧ t._serial = s._serial ∧ t._softSerial = s._softSerial ∧
  t._velocity = s._velocity ∧ t._bpm = s._bpm

/-- Between the states `s` and `t` nothing was added to the trace and every
member other than the tempo is unchanged. -/
def SAM2695Synth.onlyBpmChanged (s t : SAM2695Synth) : Prop :=
  t.trace = s.trace ∧ t._serial = s._serial ∧ t._softSerial = s._softSerial ∧
  t._pitch = s._pitch ∧ t._velocity = s._velocity

/-- A state with only a hardware serial object configured. -/
def demoHardware : SAM2695Synth :=
  { _serial := some 2, _softSerial := none, _pitch := 60, _velocity := 90, _bpm := 120,
    trace := [] }

/-- A state with both kinds of serial object configured. -/
def demoBoth : SAM2695Synth :=
  { _serial := some 2, _softSerial := some 1, _pitch := 60, _velocity := 90, _bpm := 120,
    trace := [] }

/-! ## Auxiliary lemmas -/

theorem received_append (q : Port) (xs ys : List Event) :
    received q (xs ++ ys) = received q xs ++ received q ys := by
  induction xs with
  | nil => rfl
  | cons e rest ih =>
    cases e with
    | write p bytes =>
      by_cases hpq : p = q
      · simp [received, hpq, ih]
      · simp [received, hpq, ih]
    | hwBegin a b c d => simpa [received] using ih
    | swBegin a b => simpa [received] using ih
    | println a => simpa [received] using ih

theorem writes_append (xs ys : List Event) :
    writes (xs ++ ys) = writes xs ++ writes ys := by
  induction xs with
  | nil => rfl
  | cons e rest ih =>
    cases e <;> simp [writes, ih]

theorem u8_and_low (c : Nat) : u8 c &&& 0x0f = c % 16 := by
  have h : u8 c &&& (2 ^ 4 - 1) = u8 c % 2 ^ 4 := Nat.and_pow_two_sub_one_eq_mod (u8 c) 4
  have h2 : u8 c % 16 = c % 16 := by unfold u8; omega
  simpa [h2] using h

theorem and_low (c : Nat) : c &&& 0x0f = c % 16 := by
  have h : c &&& (2 ^ 4 - 1) = c % 2 ^ 4 := Nat.and_pow_two_sub_one_eq_mod c 4
  simpa using h

theorem status_or (c : Nat) :
    u8 (0x80 ||| (c % 16)) = 0x80 + c % 16 ∧ u8 (0x90 ||| (c % 16)) = 0x90 + c % 16 ∧
    u8 (0xB0 ||| (c % 16)) = 0xB0 + c % 16 ∧ u8 (0xC0 ||| (c % 16)) = 0xC0 + c % 16 ∧
    0x80 ||| (c % 16) = 0x80 + c % 16 ∧ 0x90 ||| (c % 16) = 0x90 + c % 16 ∧
    0xB0 ||| (c % 16) = 0xB0 + c % 16 ∧ 0xC0 ||| (c % 16) = 0xC0 + c % 16 := by
  have hk : c % 16 < 16 := Nat.mod_lt _ (by decide)
  generalize c % 16 = k at hk
  interval_cases k <;> decide

theorem sendCMD_trace (s : SAM2695Synth) (cmd : List Nat) (len : Nat) :
    (s.sendCMD cmd len).trace =
      s.trace ++ s.ports.map (fun q => Event.write q (cmd.take len)) ++
        (if s._serial = none ∧ s._softSerial = none then [Event.println noTransportWarning]
         else []) := by
  rcases s with ⟨hw, sw, p, v, b, tr⟩
  cases hw <;> cases sw <;> simp [SAM2695Synth.sendCMD, SAM2695Synth.ports]

theorem sendCMD_sameMembers (s : SAM2695Synth) (cmd : List Nat) (len : Nat) :
    s.sameMembers (s.sendCMD cmd len) := by
  rcases s with ⟨hw, sw, p, v, b, tr⟩
  cases hw <;> cases sw <;> simp [SAM2695Synth.sendCMD, SAM2695Synth.sameMembers]

theorem sendCMD_ports (s : SAM2695Synth) (cmd : List Nat) (len : Nat) :
    (s.sendCMD cmd len).ports = s.ports := by
  have h := sendCMD_sameMembers s cmd len
  unfold SAM2695Synth.sameMembers at h
  unfold SAM2695Synth.ports
  rw [h.1, h.2.1]

theorem received_ports (s : SAM2695Synth) (q : Port) (hq : q ∈ s.ports) (msg : List Nat) :
    received q (s.ports.map (fun r => Event.write r msg)) = [msg] := by
  rcases s with ⟨hw, sw, p, v, b, tr⟩
  cases hw <;> cases sw <;> simp [SAM2695Synth.ports] at hq ⊢
  · subst hq; simp [received]
  · subst hq; simp [received]
  · rcases hq with hq | hq <;> subst hq <;> simp [received]

theorem ports_ne_nil (s : SAM2695Synth) (h : s._serial ≠ none ∨ s._softSerial ≠ none) :
    ¬ (s._serial = none ∧ s._softSerial = none) := by
  rintro ⟨h1, h2⟩
  rcases h with h | h
  · exact h h1
  · exact h h2

theorem sentinel_never (n : Nat) : ¬ ((-1 : Int) = (n : Int)) := by omega

theorem setNoteOn_eq (s : SAM2695Synth) (channel pitch velocity : Nat) :
    s.setNoteOn channel pitch velocity =
      s.sendCMD [0x90 + channel % 16, u8 pitch, u8 velocity] 3 := by
  simp only [SAM2695Synth.setNoteOn, MIDI_COMMAND_ON, u8_and_low, sentinel_never, if_false,
    (status_or channel).2.1, List.length_cons, List.length_nil]

theorem setNoteOff_eq (s : SAM2695Synth) (channel pitch velocity : Nat) :
    s.setNoteOff channel pitch velocity = s.sendCMD [0x80 + channel % 16, u8 pitch, 0] 3 := by
  simp only [SAM2695Synth.setNoteOff, MIDI_COMMAND_OFF, u8_and_low,
    (status_or channel).1, List.length_cons, List.length_nil]

theorem setAllNotesOff_eq (s : SAM2695Synth) (channel : Nat) :
    s.setAllNotesOff channel = s.sendCMD [0xB0 + channel % 16, 0x7b, 0] 3 := by
  simp only [SAM2695Synth.setAllNotesOff, MIDI_CMD_CONTROL_CHANGE, u8_and_low,
    (status_or channel).2.2.1, List.length_cons, List.length_nil]

theorem setVolume_eq (s : SAM2695Synth) (channel level : Nat) :
    s.setVolume channel level = s.sendCMD [0xB0 + channel % 16, 0x07, u8 level] 3 := by
  simp only [SAM2695Synth.setVolume, MIDI_CMD_CONTROL_CHANGE, u8_and_low,
    (status_or channel).2.2.1, List.length_cons, List.length_nil]

theorem setInstrument_eq (s : SAM2695Synth) (bank channel value : Nat) :
    s.setInstrument bank channel value =
      (s.sendCMD [0xB0 + channel % 16, 0, u8 bank] 3).sendCMD [0xC0 + channel % 16, u8 value] 2 := by
  simp only [SAM2695Synth.setInstrument, MIDI_CMD_CONTROL_CHANGE, MIDI_CMD_PROGRAM_CHANGE,
    u8_and_low, (status_or channel).2.2.1, (status_or channel).2.2.2.1, List.length_cons,
    List.length_nil]

theorem or_low (c : Nat) :
    0x80 ||| (c &&& 0x0f) = 0x80 + c % 16 ∧ 0x90 ||| (c &&& 0x0f) = 0x90 + c % 16 ∧
    0xB0 ||| (c &&& 0x0f) = 0xB0 + c % 16 ∧ 0xC0 ||| (c &&& 0x0f) = 0xC0 + c % 16 := by
  rw [and_low]
  exact ⟨(status_or c).2.2.2.2.1, (status_or c).2.2.2.2.2.1, (status_or c).2.2.2.2.2.2.1,
    (status_or c).2.2.2.2.2.2.2⟩

theorem u8_of_lt (n : Nat) (h : n < 256) : u8 n = n := Nat.mod_eq_of_lt h

/-! ## Note-on and note-off messages -/

/-- C1: for every 8-bit channel and every pitch and velocity in 0..127, with a
transport configured `setNoteOn` adds to the trace exactly one write per
configured serial object, of the three bytes
`[0x90 | (channel & 0x0F), pitch, velocity]`, so that every configured serial
object receives exactly that one message. -/
theorem setNoteOn_writes_note_on (s : SAM2695Synth) (channel pitch velocity : Nat)
    (hc : channel < 256) (hp : pitch ≤ 127) (hv : velocity ≤ 127)
    (ht : s._serial ≠ none ∨ s._softSerial ≠ none) :
    MIDI_COMMAND_ON = 0x90 ∧
    (s.setNoteOn channel pitch velocity).trace =
      s.trace ++ s.ports.map
        (fun q => Event.write q [MIDI_COMMAND_ON ||| (channel &&& 0x0f), pitch, velocity]) ∧
    ∀ q ∈ s.ports, received q (s.setNoteOn channel pitch velocity).trace =
      received q s.trace ++ [[MIDI_COMMAND_ON ||| (channel &&& 0x0f), pitch, velocity]] := by
  have hc2 := hc
  have key : (s.setNoteOn channel pitch velocity).trace =
      s.trace ++ s.ports.map
        (fun q => Event.write q [MIDI_COMMAND_ON ||| (channel &&& 0x0f), pitch, velocity]) := by
    rw [setNoteOn_eq, sendCMD_trace, if_neg (ports_ne_nil s ht), MIDI_COMMAND_ON,
      (or_low channel).2.1, u8_of_lt pitch (by omega), u8_of_lt velocity (by omega)]
    simp
  refine ⟨rfl, key, ?_⟩
  intro q hq
  rw [key, received_append, received_ports s q hq]

theorem setNoteOn_writes_note_on_witness :
    ((3 : Nat) < 256 ∧ (60 : Nat) ≤ 127 ∧ (100 : Nat) ≤ 127 ∧
      (demoHardware._serial ≠ none ∨ demoHardware._softSerial ≠ none)) ∧
    (MIDI_COMMAND_ON = 0x90 ∧
    (demoHardware.setNoteOn 3 60 100).trace =
      demoHardware.trace ++ demoHardware.ports.map
        (fun q => Event.write q [MIDI_COMMAND_ON ||| (3 &&& 0x0f), 60, 100]) ∧
    ∀ q ∈ demoHardware.ports, received q (demoHardware.setNoteOn 3 60 100).trace =
      received q demoHardware.trace ++ [[MIDI_COMMAND_ON ||| (3 &&& 0x0f), 60, 100]]) :=
  ⟨⟨by decide, by decide, by decide, Or.inl (by decide)⟩,
    setNoteOn_writes_note_on demoHardware 3 60 100 (by decide) (by decide) (by decide)
      (Or.inl (by decide))⟩

/-- C2: for all 8-bit arguments, with a transport configured `setNoteOff` adds
to the trace exactly one write per configured serial object, of the three
bytes `[0x80 | (channel & 0x0F), pitch, 0x00]`; every configured serial object
receives exactly that message, and the resulting state is the same for any two
velocity arguments. -/
theorem setNoteOff_writes_note_off (s : SAM2695Synth) (channel pitch velocity : Nat)
    (hc : channel < 256) (hp : pitch < 256) (hv : velocity < 256)
    (ht : s._serial ≠ none ∨ s._softSerial ≠ none) :
    MIDI_COMMAND_OFF = 0x80 ∧
    (s.setNoteOff channel pitch velocity).trace =
      s.trace ++ s.ports.map
        (fun q => Event.write q [MIDI_COMMAND_OFF ||| (channel &&& 0x0f), pitch, 0x00]) ∧
    (∀ q ∈ s.ports, received q (s.setNoteOff channel pitch velocity).trace =
      received q s.trace ++ [[MIDI_COMMAND_OFF ||| (channel &&& 0x0f), pitch, 0x00]]) ∧
    ∀ other : Nat, s.setNoteOff channel pitch other = s.setNoteOff channel pitch velocity := by
  have hc2 := hc
  have hv2 := hv
  have key : (s.setNoteOff channel pitch velocity).trace =
      s.trace ++ s.ports.map
        (fun q => Event.write q [MIDI_COMMAND_OFF ||| (channel &&& 0x0f), pitch, 0x00]) := by
    rw [setNoteOff_eq, sendCMD_trace, if_neg (ports_ne_nil s ht), MIDI_COMMAND_OFF,
      (or_low channel).1, u8_of_lt pitch hp]
    simp
  refine ⟨rfl, key, ?_, ?_⟩
  · intro q hq
    rw [key, received_append, received_ports s q hq]
  · intro other
    rw [setNoteOff_eq, setNoteOff_eq]

theorem setNoteOff_writes_note_off_witness :
    ((19 : Nat) < 256 ∧ (200 : Nat) < 256 ∧ (77 : Nat) < 256 ∧
      (demoBoth._serial ≠ none ∨ demoBoth._softSerial ≠ none)) ∧
    (MIDI_COMMAND_OFF = 0x80 ∧
    (demoBoth.setNoteOff 19 200 77).trace =
      demoBoth.trace ++ demoBoth.ports.map
        (fun q => Event.write q [MIDI_COMMAND_OFF ||| (19 &&& 0x0f), 200, 0x00]) ∧
    (∀ q ∈ demoBoth.ports, received q (demoBoth.setNoteOff 19 200 77).trace =
      received q demoBoth.trace ++ [[MIDI_COMMAND_OFF ||| (19 &&& 0x0f), 200, 0x00]]) ∧
    ∀ other : Nat, demoBoth.setNoteOff 19 200 other = demoBoth.setNoteOff 19 200 77) :=
  ⟨⟨by decide, by decide, by decide, Or.inl (by decide)⟩,
    setNoteOff_writes_note_off demoBoth 19 200 77 (by decide) (by decide) (by decide)
      (Or.inl (by decide))⟩

/-! ## Tempo -/

/-- C3: for every 8-bit argument `x`, after `setBpm(x)` the tempo returned by
`getBpm()` is 40 when `x < 40`, 240 when `x > 240`, and `x` otherwise. -/
theorem setBpm_clamps (s : SAM2695Synth) (x : Nat) (hx : x < 256) :
    BPM_MIN = 40 ∧ BPM_MAX = 240 ∧
    (s.setBpm x).getBpm = if x < 40 then 40 else if x > 240 then 240 else x := by
  refine ⟨rfl, rfl, ?_⟩
  simp only [SAM2695Synth.setBpm, SAM2695Synth.getBpm, BPM_MIN, BPM_MAX, u8]
  rw [Nat.mod_eq_of_lt hx]
  split_ifs <;> omega

theorem setBpm_clamps_witness :
    (250 : Nat) < 256 ∧
    (BPM_MIN = 40 ∧ BPM_MAX = 240 ∧
    (demoHardware.setBpm 250).getBpm =
      if (250 : Nat) < 40 then 40 else if (250 : Nat) > 240 then 240 else 250) :=
  ⟨by decide, setBpm_clamps demoHardware 250 (by decide)⟩

/-! ## Pitch stepping -/

/-- C4: from the stored pitch 0, which `setPitch(0)` stores, `decreasePitch()`
leaves the stored pitch at 255: the decrement wraps around in the 8-bit member
and 255 passes the test against `NOTE_B0`, so the pitch leaves 0..127. -/
theorem decreasePitch_wraps_at_zero :
    ((SAM2695Synth.new 120).setPitch 0).getPitch = 0 ∧
    (((SAM2695Synth.new 120).setPitch 0).decreasePitch).getPitch = 255 ∧
    ¬ ((((SAM2695Synth.new 120).setPitch 0).decreasePitch).getPitch ≤ 127) := by
  decide

/-! ## No transport configured -/

theorem onlyWarned_refl (s : SAM2695Synth) : s.onlyWarned s 0 := by
  simp [SAM2695Synth.onlyWarned, SAM2695Synth.sameMembers]

theorem onlyWarned_trans (s t u : SAM2695Synth) (j k : Nat)
    (h1 : s.onlyWarned t j) (h2 : t.onlyWarned u k) : s.onlyWarned u (j + k) := by
  obtain ⟨⟨a1, a2, a3, a4, a5⟩, aw, at1⟩ := h1
  obtain ⟨⟨b1, b2, b3, b4, b5⟩, bw, bt⟩ := h2
  refine ⟨⟨?_, ?_, ?_, ?_, ?_⟩, ?_, ?_⟩
  · rw [b1, a1]
  · rw [b2, a2]
  · rw [b3, a3]
  · rw [b4, a4]
  · rw [b5, a5]
  · rw [bw, aw]
  · rw [bt, at1, List.append_assoc, List.replicate_add]

theorem sendCMD_onlyWarned (s : SAM2695Synth) (cmd : List Nat) (len : Nat)
    (h1 : s._serial = none) (h2 : s._softSerial = none) :
    s.onlyWarned (s.sendCMD cmd len) 1 := by
  refine ⟨sendCMD_sameMembers s cmd len, ?_, ?_⟩
  · rw [sendCMD_trace, if_pos ⟨h1, h2⟩]
    simp [SAM2695Synth.ports, h1, h2, writes_append, writes]
  · rw [sendCMD_trace, if_pos ⟨h1, h2⟩]
    simp [SAM2695Synth.ports, h1, h2]

theorem playChord_onlyWarned (chord : musicData) (notes : List note) (s : SAM2695Synth)
    (h1 : s._serial = none) (h2 : s._softSerial = none) :
    s.onlyWarned
      (notes.foldl
        (fun acc n => if n.isOn then acc.setNoteOn chord.channel n.pitch chord.velocity else acc)
        s)
      (notes.countP (fun n => n.isOn)) := by
  induction notes generalizing s with
  | nil => exact onlyWarned_refl s
  | cons n rest ih =>
    rw [List.foldl_cons]
    cases hn : n.isOn with
    | false =>
      simp only [Bool.false_eq_true, if_false]
      have hc : (n :: rest).countP (fun n => n.isOn) = rest.countP (fun n => n.isOn) := by
        simp [List.countP_cons, hn]
      rw [hc]
      exact ih s h1 h2
    | true =>
      simp only [if_true]
      have hstep : s.onlyWarned (s.setNoteOn chord.channel n.pitch chord.velocity) 1 := by
        rw [setNoteOn_eq]
        exact sendCMD_onlyWarned s _ _ h1 h2
      have g1 : (s.setNoteOn chord.channel n.pitch chord.velocity)._serial = none := by
        rw [hstep.1.1, h1]
      have g2 : (s.setNoteOn chord.channel n.pitch chord.velocity)._softSerial = none := by
        rw [hstep.1.2.1, h2]
      have hc : (n :: rest).countP (fun n => n.isOn) = 1 + rest.countP (fun n => n.isOn) := by
        simp [List.countP_cons, hn, Nat.add_comm]
      rw [hc]
      exact onlyWarned_trans _ _ _ _ _ hstep (ih _ g1 g2)

/-- C5: when neither serial object is configured, each of `setNoteOn`,
`setNoteOff`, `setAllNotesOff`, `setVolume`, `setInstrument` and `playChord`
returns a state, writes no byte to any serial object, prints only the warning
(once per message it would have sent) and leaves pitch, velocity, tempo and
both transport references unchanged. -/
theorem no_transport_is_noop (s : SAM2695Synth) (channel pitch velocity level bank value : Nat)
    (chord : musicData) (h1 : s._serial = none) (h2 : s._softSerial = none) :
    s.onlyWarned (s.setNoteOn channel pitch velocity) 1 ∧
    s.onlyWarned (s.setNoteOff channel pitch velocity) 1 ∧
    s.onlyWarned (s.setAllNotesOff channel) 1 ∧
    s.onlyWarned (s.setVolume channel level) 1 ∧
    s.onlyWarned (s.setInstrument bank channel value) 2 ∧
    s.onlyWarned (s.playChord chord) (chord.notes.countP (fun n => n.isOn)) := by
  refine ⟨?_, ?_, ?_, ?_, ?_, ?_⟩
  · rw [setNoteOn_eq]; exact sendCMD_onlyWarned s _ _ h1 h2
  · rw [setNoteOff_eq]; exact sendCMD_onlyWarned s _ _ h1 h2
  · rw [setAllNotesOff_eq]; exact sendCMD_onlyWarned s _ _ h1 h2
  · rw [setVolume_eq]; exact sendCMD_onlyWarned s _ _ h1 h2
  · rw [setInstrument_eq]
    have hstep := sendCMD_onlyWarned s [0xB0 + channel % 16, 0, u8 bank] 3 h1 h2
    have g1 : (s.sendCMD [0xB0 + channel % 16, 0, u8 bank] 3)._serial = none := by
      rw [hstep.1.1, h1]
    have g2 : (s.sendCMD [0xB0 + channel % 16, 0, u8 bank] 3)._softSerial = none := by
      rw [hstep.1.2.1, h2]
    exact onlyWarned_trans _ _ _ 1 1 hstep (sendCMD_onlyWarned _ _ _ g1 g2)
  · exact playChord_onlyWarned chord chord.notes s h1 h2

theorem no_transport_is_noop_witness :
    ((SAM2695Synth.new 120)._serial = none ∧ (SAM2695Synth.new 120)._softSerial = none) ∧
    ((SAM2695Synth.new 120).onlyWarned ((SAM2695Synth.new 120).setNoteOn 3 60 100) 1 ∧
    (SAM2695Synth.new 120).onlyWarned ((SAM2695Synth.new 120).setNoteOff 3 60 100) 1 ∧
    (SAM2695Synth.new 120).onlyWarned ((SAM2695Synth.new 120).setAllNotesOff 3) 1 ∧
    (SAM2695Synth.new 120).onlyWarned ((SAM2695Synth.new 120).setVolume 3 90) 1 ∧
    (SAM2695Synth.new 120).onlyWarned ((SAM2695Synth.new 120).setInstrument 0 3 17) 2 ∧
    (SAM2695Synth.new 120).onlyWarned
      ((SAM2695Synth.new 120).playChord
        { channel := 3, notes := [⟨60, true⟩, ⟨64, false⟩, ⟨67, true⟩], velocity := 100 })
      (List.countP (fun n => n.isOn) [(⟨60, true⟩ : note), ⟨64, false⟩, ⟨67, true⟩])) :=
  ⟨⟨rfl, rfl⟩,
    no_transport_is_noop (SAM2695Synth.new 120) 3 60 100 90 0 17
      { channel := 3, notes := [⟨60, true⟩, ⟨64, false⟩, ⟨67, true⟩], velocity := 100 } rfl rfl⟩

/-! ## Transport configuration -/

theorem runBegins_members (calls : List BeginCall) (s : SAM2695Synth) :
    ∃ t, s.runBegins calls = some t ∧
      t._serial = hardwareAfter s._serial calls ∧
      t._softSerial = softwareAfter s._softSerial calls ∧
      t._pitch = s._pitch ∧ t._velocity = s._velocity ∧ t._bpm = s._bpm := by
  induction calls generalizing s with
  | nil => exact ⟨s, rfl, rfl, rfl, rfl, rfl, rfl⟩
  | cons c rest ih =>
    cases c with
    | hardware serial baud RX TX =>
      obtain ⟨t, ht, h1, h2, h3, h4, h5⟩ := ih
        { s with _serial := some serial,
                 trace := s.trace ++ [Event.hwBegin serial baud (u8 RX) (u8 TX)] }
      exact ⟨t, by simpa [SAM2695Synth.runBegins, SAM2695Synth.begin_HardwareSerial] using ht,
        by simpa [hardwareAfter] using h1, by simpa [softwareAfter] using h2, h3, h4, h5⟩
    | software serial baud =>
      obtain ⟨t, ht, h1, h2, h3, h4, h5⟩ := ih (s.begin_SoftwareSerial serial baud)
      have e1 : (s.begin_SoftwareSerial serial baud)._serial = s._serial := by
        cases serial <;> rfl
      have e2 : (s.begin_SoftwareSerial serial baud)._softSerial = serial := by
        cases serial <;> rfl
      have e3 : (s.begin_SoftwareSerial serial baud)._pitch = s._pitch := by
        cases serial <;> rfl
      have e4 : (s.begin_SoftwareSerial serial baud)._velocity = s._velocity := by
        cases serial <;> rfl
      have e5 : (s.begin_SoftwareSerial serial baud)._bpm = s._bpm := by
        cases serial <;> rfl
      refine ⟨t, by simpa [SAM2695Synth.runBegins] using ht, ?_, ?_, ?_, ?_, ?_⟩
      · rw [h1, e1]; rfl
      · rw [h2, e2]; rfl
      · rw [h3, e3]
      · rw [h4, e4]
      · rw [h5, e5]

theorem hardwareAfter_no_hardware (calls : List BeginCall) (cur : Option Nat)
    (h : ∀ c ∈ calls, c.isHardware = false) : hardwareAfter cur calls = cur := by
  induction calls generalizing cur with
  | nil => rfl
  | cons c rest ih =>
    cases c with
    | hardware serial baud RX TX =>
      have := h (BeginCall.hardware serial baud RX TX) (List.mem_cons_self _ _)
      simp [BeginCall.isHardware] at this
    | software serial baud =>
      simp only [hardwareAfter]
      exact ih cur (fun c hc => h c (List.mem_cons_of_mem _ hc))

theorem softwareAfter_no_software (calls : List BeginCall) (cur : Option Nat)
    (h : ∀ c ∈ calls, c.isHardware = true) : softwareAfter cur calls = cur := by
  induction calls generalizing cur with
  | nil => rfl
  | cons c rest ih =>
    cases c with
    | hardware serial baud RX TX =>
      simp only [softwareAfter]
      exact ih cur (fun c hc => h c (List.mem_cons_of_mem _ hc))
    | software serial baud =>
      have := h (BeginCall.software serial baud) (List.mem_cons_self _ _)
      simp [BeginCall.isHardware] at this

theorem sendCMD_writes (s : SAM2695Synth) (cmd : List Nat) (len : Nat) :
    writes (s.sendCMD cmd len).trace =
      writes s.trace ++ s.ports.map (fun q => (q, cmd.take len)) := by
  rw [sendCMD_trace]
  rcases s with ⟨hw, sw, p, v, b, tr⟩
  cases hw <;> cases sw <;> simp [SAM2695Synth.ports, writes_append, writes]

/-- C6, counterexample: from the constructed state, `begin` on a hardware
serial object followed by `begin` on a software serial object leaves both
transport references set, and `sendCMD` then writes the message to both. -/
theorem begin_both_kinds_both_active :
    (SAM2695Synth.new 120).runBegins
      [BeginCall.hardware 2 115200 42 43, BeginCall.software (some 1) 31250] = some begunBoth ∧
    ¬ (begunBoth._serial = none ∨ begunBoth._softSerial = none) ∧
    writes (begunBoth.sendCMD [0x90, 60, 100] 3).trace =
      [(Port.hardware 2, [0x90, 60, 100]), (Port.software 1, [0x90, 60, 100])] := by
  decide

theorem hardwareAfter_ne_none (calls : List BeginCall) (cur : Option Nat) :
    hardwareAfter cur calls ≠ none ↔ (cur ≠ none ∨ ∃ c ∈ calls, c.isHardware = true) := by
  induction calls generalizing cur with
  | nil => simp [hardwareAfter]
  | cons c rest ih =>
    cases c with
    | hardware serial baud RX TX =>
      simp only [hardwareAfter]
      rw [ih]
      constructor
      · intro _
        exact Or.inr ⟨BeginCall.hardware serial baud RX TX, List.mem_cons_self _ _, rfl⟩
      · intro _
        exact Or.inl (by simp)
    | software serial baud =>
      simp only [hardwareAfter]
      rw [ih]
      constructor
      · rintro (h | ⟨c, hc, hh⟩)
        · exact Or.inl h
        · exact Or.inr ⟨c, List.mem_cons_of_mem _ hc, hh⟩
      · rintro (h | ⟨c, hc, hh⟩)
        · exact Or.inl h
        · rcases List.mem_cons.mp hc with rfl | hc2
          · simp [BeginCall.isHardware] at hh
          · exact Or.inr ⟨c, hc2, hh⟩

theorem softwareAfter_last_software (pre : List BeginCall) (cur serial : Option Nat)
    (baud : Int) : softwareAfter cur (pre ++ [BeginCall.software serial baud]) = serial := by
  induction pre generalizing cur with
  | nil => rfl
  | cons c rest ih =>
    cases c with
    | hardware s b RX TX => simpa [softwareAfter] using ih cur
    | software s b => simpa [softwareAfter] using ih s

theorem ports_length_two (t : SAM2695Synth) :
    t.ports.length = 2 ↔ (t._serial ≠ none ∧ t._softSerial ≠ none) := by
  rcases t with ⟨hw, sw, p, v, b, tr⟩
  cases hw <;> cases sw <;> simp [SAM2695Synth.ports]

/-- C6, amended: every sequence of `begin` calls from the constructed state
succeeds; each overload sets only its own reference, so afterwards the
hardware reference is the serial object of the last hardware call and the
software reference the argument of the last software call (null without such a
call). After calls of one overload only, the other reference is still null and
at most one transport is active. In every case `sendCMD` writes its message
exactly once to each active transport, hardware first. The hardware reference
is non-null exactly when there was a hardware call; a software call with a null
argument as the last call leaves the software reference null; both transports
are active exactly when there was a hardware call and the last software call had
a non-null argument. -/
theorem begin_sets_only_its_own_transport (BPM_DEFAULT : Nat) (calls : List BeginCall) :
    ∃ t, (SAM2695Synth.new BPM_DEFAULT).runBegins calls = some t ∧
      t._serial = hardwareAfter none calls ∧
      t._softSerial = softwareAfter none calls ∧
      ((∀ c ∈ calls, c.isHardware = true) → t._softSerial = none ∧ t.ports.length ≤ 1) ∧
      ((∀ c ∈ calls, c.isHardware = false) → t._serial = none ∧ t.ports.length ≤ 1) ∧
      (∀ (cmd : List Nat) (len : Nat),
        writes (t.sendCMD cmd len).trace =
          writes t.trace ++ t.ports.map (fun q => (q, cmd.take len))) ∧
      (t._serial ≠ none ↔ ∃ c ∈ calls, c.isHardware = true) ∧
      (∀ (pre : List BeginCall) (baud : Int),
        calls = pre ++ [BeginCall.software none baud] → t._softSerial = none) ∧
      (t.ports.length = 2 ↔
        ((∃ c ∈ calls, c.isHardware = true) ∧ softwareAfter none calls ≠ none)) := by
  obtain ⟨t, ht, h1, h2, -, -, -⟩ := runBegins_members calls (SAM2695Synth.new BPM_DEFAULT)
  have n1 : (SAM2695Synth.new BPM_DEFAULT)._serial = none := rfl
  have n2 : (SAM2695Synth.new BPM_DEFAULT)._softSerial = none := rfl
  rw [n1] at h1
  rw [n2] at h2
  have hhw : t._serial ≠ none ↔ ∃ c ∈ calls, c.isHardware = true := by
    rw [h1, hardwareAfter_ne_none]
    simp
  refine ⟨t, ht, h1, h2, ?_, ?_, fun cmd len => sendCMD_writes t cmd len, hhw, ?_, ?_⟩
  · intro hall
    have hs : t._softSerial = none := by rw [h2, softwareAfter_no_software calls none hall]
    refine ⟨hs, ?_⟩
    unfold SAM2695Synth.ports
    rw [hs]
    cases t._serial <;> simp
  · intro hall
    have hs : t._serial = none := by rw [h1, hardwareAfter_no_hardware calls none hall]
    refine ⟨hs, ?_⟩
    unfold SAM2695Synth.ports
    rw [hs]
    cases t._softSerial <;> simp
  · intro pre baud hcalls
    rw [h2, hcalls, softwareAfter_last_software]
  · rw [ports_length_two, hhw, h2]

/-! ## Status bytes -/

theorem sendCMD_received (s : SAM2695Synth) (q : Port) (hq : q ∈ s.ports) (cmd : List Nat)
    (len : Nat) :
    received q (s.sendCMD cmd len).trace = received q s.trace ++ [cmd.take len] := by
  rw [sendCMD_trace, received_append, received_append, received_ports s q hq]
  split_ifs <;> simp [received]

theorem sendCMD_received_other (s : SAM2695Synth) (q : Port) (hq : q ∉ s.ports) (cmd : List Nat)
    (len : Nat) :
    received q (s.sendCMD cmd len).trace = received q s.trace := by
  rw [sendCMD_trace, received_append, received_append]
  have h0 : received q (s.ports.map (fun r => Event.write r (cmd.take len))) = [] := by
    rcases s with ⟨hw, sw, p, v, b, tr⟩
    cases hw <;> cases sw <;> simp [SAM2695Synth.ports] at hq ⊢
    · simp [received]
    · simp [received, Ne.symm hq]
    · simp [received, Ne.symm hq]
    · simp [received, Ne.symm hq.1, Ne.symm hq.2]
  rw [h0]
  split_ifs <;> simp [received]

theorem nibbles_of_status (base c : Nat) (rest : List Nat) (hbase : base % 16 = 0) :
    statusNibbles ((base + c % 16) :: rest) = some (base / 16, c % 16) := by
  simp only [statusNibbles, List.head?_cons, Option.map_some']
  congr 1
  ext
  · show (base + c % 16) / 16 = base / 16
    omega
  · show (base + c % 16) % 16 = c % 16
    omega

theorem mod16_add16 (c : Nat) : (c + 16) % 16 = c % 16 := by omega

/-- C7: for every channel argument `c` and every configured serial object, the
message written by `setNoteOn`, `setNoteOff`, `setAllNotesOff` and `setVolume`
has a first byte with high nibble 0x9, 0x8, 0xB and 0xB respectively and low
nibble `c mod 16`; `setInstrument` writes two messages, with high nibbles 0xB
then 0xC and the same low nibble. Calling any of them with channel `c + 16`
gives the same resulting state, trace included, as calling it with `c`. -/
theorem status_byte_nibbles (s : SAM2695Synth) (c pitch velocity level bank value : Nat)
    (q : Port) (hq : q ∈ s.ports) :
    (∃ m, received q (s.setNoteOn c pitch velocity).trace = received q s.trace ++ [m] ∧
      statusNibbles m = some (0x9, c % 16)) ∧
    (∃ m, received q (s.setNoteOff c pitch velocity).trace = received q s.trace ++ [m] ∧
      statusNibbles m = some (0x8, c % 16)) ∧
    (∃ m, received q (s.setAllNotesOff c).trace = received q s.trace ++ [m] ∧
      statusNibbles m = some (0xB, c % 16)) ∧
    (∃ m, received q (s.setVolume c level).trace = received q s.trace ++ [m] ∧
      statusNibbles m = some (0xB, c % 16)) ∧
    (∃ m1 m2, received q (s.setInstrument bank c value).trace =
        received q s.trace ++ [m1, m2] ∧
      statusNibbles m1 = some (0xB, c % 16) ∧ statusNibbles m2 = some (0xC, c % 16)) ∧
    s.setNoteOn (c + 16) pitch velocity = s.setNoteOn c pitch velocity ∧
    s.setNoteOff (c + 16) pitch velocity = s.setNoteOff c pitch velocity ∧
    s.setAllNotesOff (c + 16) = s.setAllNotesOff c ∧
    s.setVolume (c + 16) level = s.setVolume c level ∧
    s.setInstrument bank (c + 16) value = s.setInstrument bank c value := by
  refine ⟨?_, ?_, ?_, ?_, ?_, ?_, ?_, ?_, ?_, ?_⟩
  · refine ⟨_, ?_, nibbles_of_status 0x90 c [u8 pitch, u8 velocity] (by decide)⟩
    rw [setNoteOn_eq, sendCMD_received s q hq]
    rfl
  · refine ⟨_, ?_, nibbles_of_status 0x80 c [u8 pitch, 0] (by decide)⟩
    rw [setNoteOff_eq, sendCMD_received s q hq]
    rfl
  · refine ⟨_, ?_, nibbles_of_status 0xB0 c [0x7b, 0] (by decide)⟩
    rw [setAllNotesOff_eq, sendCMD_received s q hq]
    rfl
  · refine ⟨_, ?_, nibbles_of_status 0xB0 c [0x07, u8 level] (by decide)⟩
    rw [setVolume_eq, sendCMD_received s q hq]
    rfl
  · refine ⟨_, _, ?_, nibbles_of_status 0xB0 c [0, u8 bank] (by decide),
      nibbles_of_status 0xC0 c [u8 value] (by decide)⟩
    have hq2 : q ∈ (s.sendCMD [0xB0 + c % 16, 0, u8 bank] 3).ports := by
      rw [sendCMD_ports]; exact hq
    rw [setInstrument_eq, sendCMD_received _ q hq2, sendCMD_received s q hq, List.append_assoc]
    rfl
  · rw [setNoteOn_eq, setNoteOn_eq, mod16_add16]
  · rw [setNoteOff_eq, setNoteOff_eq, mod16_add16]
  · rw [setAllNotesOff_eq, setAllNotesOff_eq, mod16_add16]
  · rw [setVolume_eq, setVolume_eq, mod16_add16]
  · rw [setInstrument_eq, setInstrument_eq, mod16_add16]

theorem status_byte_nibbles_witness :
    Port.software 1 ∈ demoBoth.ports ∧
    ((∃ m, received (Port.software 1) (demoBoth.setNoteOn 250 60 100).trace =
        received (Port.software 1) demoBoth.trace ++ [m] ∧
      statusNibbles m = some (0x9, 250 % 16)) ∧
    (∃ m, received (Port.software 1) (demoBoth.setNoteOff 250 60 100).trace =
        received (Port.software 1) demoBoth.trace ++ [m] ∧
      statusNibbles m = some (0x8, 250 % 16)) ∧
    (∃ m, received (Port.software 1) (demoBoth.setAllNotesOff 250).trace =
        received (Port.software 1) demoBoth.trace ++ [m] ∧
      statusNibbles m = some (0xB, 250 % 16)) ∧
    (∃ m, received (Port.software 1) (demoBoth.setVolume 250 90).trace =
        received (Port.software 1) demoBoth.trace ++ [m] ∧
      statusNibbles m = some (0xB, 250 % 16)) ∧
    (∃ m1 m2, received (Port.software 1) (demoBoth.setInstrument 1 250 17).trace =
        received (Port.software 1) demoBoth.trace ++ [m1, m2] ∧
      statusNibbles m1 = some (0xB, 250 % 16) ∧ statusNibbles m2 = some (0xC, 250 % 16)) ∧
    demoBoth.setNoteOn (250 + 16) 60 100 = demoBoth.setNoteOn 250 60 100 ∧
    demoBoth.setNoteOff (250 + 16) 60 100 = demoBoth.setNoteOff 250 60 100 ∧
    demoBoth.setAllNotesOff (250 + 16) = demoBoth.setAllNotesOff 250 ∧
    demoBoth.setVolume (250 + 16) 90 = demoBoth.setVolume 250 90 ∧
    demoBoth.setInstrument 1 (250 + 16) 17 = demoBoth.setInstrument 1 250 17) :=
  ⟨by decide, status_byte_nibbles demoBoth 250 60 100 90 1 17 (Port.software 1) (by decide)⟩

/-! ## Instrument selection -/

theorem concat_append (msgs : List (List Nat)) (tail : List (List Nat)) :
    (msgs ++ tail).foldr (fun msg acc => msg ++ acc) [] =
      msgs.foldr (fun msg acc => msg ++ acc) [] ++ tail.foldr (fun msg acc => msg ++ acc) [] := by
  induction msgs with
  | nil => rfl
  | cons m rest ih => simp [List.foldr_cons, ih]

/-- C8: for all 8-bit arguments, with a transport configured `setInstrument`
adds to the trace first the bank-select control change
`[0xB0 | (channel & 0x0F), 0x00, bank]` and then the program change
`[0xC0 | (channel & 0x0F), value]` (each once per configured serial object);
every configured serial object receives exactly these two messages in this
order, five bytes in all. -/
theorem setInstrument_writes_bank_then_program (s : SAM2695Synth) (bank channel value : Nat)
    (hb : bank < 256) (hc : channel < 256) (hv : value < 256)
    (ht : s._serial ≠ none ∨ s._softSerial ≠ none) :
    MIDI_CMD_CONTROL_CHANGE = 0xB0 ∧ MIDI_CMD_PROGRAM_CHANGE = 0xC0 ∧
    (s.setInstrument bank channel value).trace =
      s.trace ++
        s.ports.map
          (fun q => Event.write q [MIDI_CMD_CONTROL_CHANGE ||| (channel &&& 0x0f), 0x00, bank]) ++
        s.ports.map
          (fun q => Event.write q [MIDI_CMD_PROGRAM_CHANGE ||| (channel &&& 0x0f), value]) ∧
    ∀ q ∈ s.ports,
      received q (s.setInstrument bank channel value).trace =
        received q s.trace ++
          [[MIDI_CMD_CONTROL_CHANGE ||| (channel &&& 0x0f), 0x00, bank],
           [MIDI_CMD_PROGRAM_CHANGE ||| (channel &&& 0x0f), value]] ∧
      stream q (s.setInstrument bank channel value).trace =
        stream q s.trace ++
          [MIDI_CMD_CONTROL_CHANGE ||| (channel &&& 0x0f), 0x00, bank,
           MIDI_CMD_PROGRAM_CHANGE ||| (channel &&& 0x0f), value] := by
  have hc2 := hc
  have hne := ports_ne_nil s ht
  have hports := sendCMD_ports s [0xB0 + channel % 16, 0, u8 bank] 3
  have hmem := sendCMD_sameMembers s [0xB0 + channel % 16, 0, u8 bank] 3
  have hne2 : ¬ ((s.sendCMD [0xB0 + channel % 16, 0, u8 bank] 3)._serial = none ∧
      (s.sendCMD [0xB0 + channel % 16, 0, u8 bank] 3)._softSerial = none) := by
    rw [hmem.1, hmem.2.1]; exact hne
  refine ⟨rfl, rfl, ?_, ?_⟩
  · rw [setInstrument_eq, sendCMD_trace, if_neg hne2, hports, sendCMD_trace, if_neg hne,
      MIDI_CMD_CONTROL_CHANGE, MIDI_CMD_PROGRAM_CHANGE, (or_low channel).2.2.1,
      (or_low channel).2.2.2, u8_of_lt bank hb, u8_of_lt value hv]
    simp
  · intro q hq
    have hq2 : q ∈ (s.sendCMD [0xB0 + channel % 16, 0, u8 bank] 3).ports := by
      rw [hports]; exact hq
    have hrec : received q (s.setInstrument bank channel value).trace =
        received q s.trace ++
          [[MIDI_CMD_CONTROL_CHANGE ||| (channel &&& 0x0f), 0x00, bank],
           [MIDI_CMD_PROGRAM_CHANGE ||| (channel &&& 0x0f), value]] := by
      rw [setInstrument_eq, sendCMD_received _ q hq2, sendCMD_received s q hq,
        MIDI_CMD_CONTROL_CHANGE, MIDI_CMD_PROGRAM_CHANGE, (or_low channel).2.2.1,
        (or_low channel).2.2.2, u8_of_lt bank hb, u8_of_lt value hv, List.append_assoc]
      rfl
    refine ⟨hrec, ?_⟩
    unfold stream
    rw [hrec, concat_append]
    rfl

theorem setInstrument_writes_bank_then_program_witness :
    ((1 : Nat) < 256 ∧ (19 : Nat) < 256 ∧ (17 : Nat) < 256 ∧
      (demoBoth._serial ≠ none ∨ demoBoth._softSerial ≠ none)) ∧
    (MIDI_CMD_CONTROL_CHANGE = 0xB0 ∧ MIDI_CMD_PROGRAM_CHANGE = 0xC0 ∧
    (demoBoth.setInstrument 1 19 17).trace =
      demoBoth.trace ++
        demoBoth.ports.map
          (fun q => Event.write q [MIDI_CMD_CONTROL_CHANGE ||| (19 &&& 0x0f), 0x00, 1]) ++
        demoBoth.ports.map
          (fun q => Event.write q [MIDI_CMD_PROGRAM_CHANGE ||| (19 &&& 0x0f), 17]) ∧
    ∀ q ∈ demoBoth.ports,
      received q (demoBoth.setInstrument 1 19 17).trace =
        received q demoBoth.trace ++
          [[MIDI_CMD_CONTROL_CHANGE ||| (19 &&& 0x0f), 0x00, 1],
           [MIDI_CMD_PROGRAM_CHANGE ||| (19 &&& 0x0f), 17]] ∧
      stream q (demoBoth.setInstrument 1 19 17).trace =
        stream q demoBoth.trace ++
          [MIDI_CMD_CONTROL_CHANGE ||| (19 &&& 0x0f), 0x00, 1,
           MIDI_CMD_PROGRAM_CHANGE ||| (19 &&& 0x0f), 17]) :=
  ⟨⟨by decide, by decide, by decide, Or.inl (by decide)⟩,
    setInstrument_writes_bank_then_program demoBoth 1 19 17 (by decide) (by decide) (by decide)
      (Or.inl (by decide))⟩

/-! ## Chords -/

theorem setNoteOn_ports (s : SAM2695Synth) (channel pitch velocity : Nat) :
    (s.setNoteOn channel pitch velocity).ports = s.ports := by
  rw [setNoteOn_eq, sendCMD_ports]

theorem playChord_received (chord : musicData) (notes : List note) (s : SAM2695Synth)
    (q : Port) (hq : q ∈ s.ports) :
    received q
      (notes.foldl
        (fun acc n => if n.isOn then acc.setNoteOn chord.channel n.pitch chord.velocity else acc)
        s).trace =
    received q s.trace ++
      (notes.filter (fun n => n.isOn)).map
        (fun n => [0x90 + chord.channel % 16, u8 n.pitch, u8 chord.velocity]) := by
  induction notes generalizing s with
  | nil => simp
  | cons n rest ih =>
    rw [List.foldl_cons]
    cases hn : n.isOn with
    | false =>
      simp only [Bool.false_eq_true, if_false]
      rw [ih s hq]
      simp [List.filter_cons, hn]
    | true =>
      simp only [if_true]
      have hq2 : q ∈ (s.setNoteOn chord.channel n.pitch chord.velocity).ports := by
        rw [setNoteOn_ports]; exact hq
      rw [ih _ hq2, setNoteOn_eq, sendCMD_received s q hq]
      simp [List.filter_cons, hn]

theorem playChord_received_other (chord : musicData) (notes : List note) (s : SAM2695Synth)
    (q : Port) (hq : q ∉ s.ports) :
    received q
      (notes.foldl
        (fun acc n => if n.isOn then acc.setNoteOn chord.channel n.pitch chord.velocity else acc)
        s).trace =
    received q s.trace := by
  induction notes generalizing s with
  | nil => rfl
  | cons n rest ih =>
    rw [List.foldl_cons]
    cases hn : n.isOn with
    | false =>
      simp only [Bool.false_eq_true, if_false]
      exact ih s hq
    | true =>
      simp only [if_true]
      have hq2 : q ∉ (s.setNoteOn chord.channel n.pitch chord.velocity).ports := by
        rw [setNoteOn_ports]; exact hq
      rw [ih _ hq2, setNoteOn_eq, sendCMD_received_other s q hq]

theorem playChord_all_off (chord : musicData) (notes : List note) (s : SAM2695Synth)
    (hoff : ∀ n ∈ notes, n.isOn = false) :
    notes.foldl
      (fun acc n => if n.isOn then acc.setNoteOn chord.channel n.pitch chord.velocity else acc)
      s = s := by
  induction notes generalizing s with
  | nil => rfl
  | cons n rest ih =>
    rw [List.foldl_cons, hoff n (List.mem_cons_self _ _)]
    simp only [Bool.false_eq_true, if_false]
    exact ih s (fun m hm => hoff m (List.mem_cons_of_mem _ hm))

/-- C9: for every chord whose pitches and velocity are 8-bit values,
`playChord` makes every configured serial object receive exactly the note-on
messages `[0x90 | (chord.channel & 0x0F), notes[i].pitch, chord.velocity]` of
the slots whose `isOn` flag is set, in ascending slot order: as many messages
as there are active slots. No other serial object receives anything, and a
chord with no active slot leaves the state and the trace as they were. -/
theorem playChord_writes_active_notes (s : SAM2695Synth) (chord : musicData)
    (hv : chord.velocity < 256) (hp : ∀ n ∈ chord.notes, n.pitch < 256) :
    (∀ q ∈ s.ports, received q (s.playChord chord).trace =
      received q s.trace ++
        (chord.notes.filter (fun n => n.isOn)).map
          (fun n => [MIDI_COMMAND_ON ||| (chord.channel &&& 0x0f), n.pitch, chord.velocity])) ∧
    (∀ q ∈ s.ports, (received q (s.playChord chord).trace).length =
      (received q s.trace).length + chord.notes.countP (fun n => n.isOn)) ∧
    (∀ q, q ∉ s.ports → received q (s.playChord chord).trace = received q s.trace) ∧
    ((∀ n ∈ chord.notes, n.isOn = false) → s.playChord chord = s) := by
  have hmap : (chord.notes.filter (fun n => n.isOn)).map
        (fun n => [0x90 + chord.channel % 16, u8 n.pitch, u8 chord.velocity]) =
      (chord.notes.filter (fun n => n.isOn)).map
        (fun n => [MIDI_COMMAND_ON ||| (chord.channel &&& 0x0f), n.pitch, chord.velocity]) := by
    apply List.map_congr_left
    intro n hn
    rw [MIDI_COMMAND_ON, (or_low chord.channel).2.1, u8_of_lt _ hv,
      u8_of_lt _ (hp n (List.mem_filter.mp hn).1)]
  refine ⟨?_, ?_, ?_, ?_⟩
  · intro q hq
    rw [← hmap]
    exact playChord_received chord chord.notes s q hq
  · intro q hq
    have h := playChord_received chord chord.notes s q hq
    unfold SAM2695Synth.playChord
    rw [h, List.length_append, List.length_map, List.countP_eq_length_filter]
  · intro q hq
    exact playChord_received_other chord chord.notes s q hq
  · intro hoff
    exact playChord_all_off chord chord.notes s hoff

theorem playChord_writes_active_notes_witness :
    ((100 : Nat) < 256 ∧
      ∀ n ∈ [(⟨60, true⟩ : note), ⟨64, false⟩, ⟨67, true⟩], n.pitch < 256) ∧
    ((∀ q ∈ demoBoth.ports,
      received q
        (demoBoth.playChord
          { channel := 3, notes := [⟨60, true⟩, ⟨64, false⟩, ⟨67, true⟩],
            velocity := 100 }).trace =
      received q demoBoth.trace ++
        (List.filter (fun n => n.isOn) [(⟨60, true⟩ : note), ⟨64, false⟩, ⟨67, true⟩]).map
          (fun n => [MIDI_COMMAND_ON ||| (3 &&& 0x0f), n.pitch, 100])) ∧
    (∀ q ∈ demoBoth.ports,
      (received q
        (demoBoth.playChord
          { channel := 3, notes := [⟨60, true⟩, ⟨64, false⟩, ⟨67, true⟩],
            velocity := 100 }).trace).length =
      (received q demoBoth.trace).length +
        List.countP (fun n => n.isOn) [(⟨60, true⟩ : note), ⟨64, false⟩, ⟨67, true⟩]) ∧
    (∀ q, q ∉ demoBoth.ports →
      received q
        (demoBoth.playChord
          { channel := 3, notes := [⟨60, true⟩, ⟨64, false⟩, ⟨67, true⟩],
            velocity := 100 }).trace =
      received q demoBoth.trace) ∧
    ((∀ n ∈ [(⟨60, true⟩ : note), ⟨64, false⟩, ⟨67, true⟩], n.isOn = false) →
      demoBoth.playChord
        { channel := 3, notes := [⟨60, true⟩, ⟨64, false⟩, ⟨67, true⟩], velocity := 100 } =
      demoBoth)) :=
  ⟨⟨by decide, by decide⟩,
    playChord_writes_active_notes demoBoth
      { channel := 3, notes := [⟨60, true⟩, ⟨64, false⟩, ⟨67, true⟩], velocity := 100 }
      (by decide) (by decide)⟩

/-! ## Tempo range -/

theorem setBpm_range (s : SAM2695Synth) (x : Nat) :
    40 ≤ (s.setBpm x).getBpm ∧ (s.setBpm x).getBpm ≤ 240 := by
  simp only [SAM2695Synth.setBpm, SAM2695Synth.getBpm, BPM_MIN, BPM_MAX, u8]
  split_ifs <;> omega

/-- C10: for every state, every argument and every value of `BPM_STEP`, the
tempo returned by `getBpm()` after `setBpm`, after `increaseBpm` and after
`decreaseBpm` lies in 40..240; the sum and the difference are truncated to
8 bits on the call of `setBpm`. -/
theorem bpm_always_in_range (s : SAM2695Synth) (x BPM_STEP : Nat) :
    (40 ≤ (s.setBpm x).getBpm ∧ (s.setBpm x).getBpm ≤ 240) ∧
    (40 ≤ (s.increaseBpm BPM_STEP).getBpm ∧ (s.increaseBpm BPM_STEP).getBpm ≤ 240) ∧
    (40 ≤ (s.decreaseBpm BPM_STEP).getBpm ∧ (s.decreaseBpm BPM_STEP).getBpm ≤ 240) :=
  ⟨setBpm_range s x, setBpm_range s _, setBpm_range s _⟩

/-! ## Velocity stepping -/

theorem sameMembers_trans (s t u : SAM2695Synth) (h1 : s.sameMembers t) (h2 : t.sameMembers u) :
    s.sameMembers u := by
  obtain ⟨a1, a2, a3, a4, a5⟩ := h1
  obtain ⟨b1, b2, b3, b4, b5⟩ := h2
  exact ⟨by rw [b1, a1], by rw [b2, a2], by rw [b3, a3], by rw [b4, a4], by rw [b5, a5]⟩

theorem volumeLoop_sameMembers (channels : List Nat) (s : SAM2695Synth) :
    s.sameMembers (channels.foldl (fun acc i => acc.setVolume i acc._velocity) s) := by
  induction channels generalizing s with
  | nil => simp [SAM2695Synth.sameMembers]
  | cons c rest ih =>
    rw [List.foldl_cons]
    refine sameMembers_trans _ _ _ ?_ (ih _)
    rw [setVolume_eq]
    exact sendCMD_sameMembers s _ _

theorem increaseVelocity_velocity (s : SAM2695Synth) (step : Nat) :
    (s.increaseVelocity step)._velocity =
      if u8 (s._velocity + step) > 127 then 127 else u8 (s._velocity + step) := by
  unfold SAM2695Synth.increaseVelocity
  rw [(volumeLoop_sameMembers _ _).2.2.2.1]
  simp only [VELOCITY_MAX, u8]
  split_ifs <;> rfl

theorem decreaseVelocity_velocity (s : SAM2695Synth) (step : Nat) :
    (s.decreaseVelocity step)._velocity = u8i ((s._velocity : Int) - (step : Int)) := by
  unfold SAM2695Synth.decreaseVelocity
  rw [(volumeLoop_sameMembers _ _).2.2.2.1]
  simp [VELOCITY_MIN]

/-- C11: with `VELOCITY_STEP` = 10, nine calls of `decreaseVelocity()` take the
constructed state from velocity 90 down to 0, and the tenth call leaves the
stored velocity at 246: the subtraction wraps around in the 8-bit member and
the test against `VELOCITY_MIN` = 0 can never fire, so the velocity leaves
0..127 where the integer value `max(0 - 10, 0)` is 0. -/
theorem decreaseVelocity_wraps_below_zero :
    (Nat.iterate (fun s => s.decreaseVelocity 10) 9 (SAM2695Synth.new 120))._velocity = 0 ∧
    (Nat.iterate (fun s => s.decreaseVelocity 10) 10 (SAM2695Synth.new 120))._velocity = 246 ∧
    ¬ ((Nat.iterate (fun s => s.decreaseVelocity 10) 10 (SAM2695Synth.new 120))._velocity ≤ 127) ∧
    max ((0 : Int) - 10) 0 = 0 := by
  have h : ∀ (n : Nat) (s : SAM2695Synth),
      (Nat.iterate (fun s => s.decreaseVelocity 10) n s)._velocity =
        Nat.iterate (fun v => u8i ((v : Int) - 10)) n s._velocity := by
    intro n
    induction n with
    | zero => intro s; rfl
    | succ k ih =>
      intro s
      rw [Function.iterate_succ_apply, Function.iterate_succ_apply, ih, decreaseVelocity_velocity]
      rfl
  rw [h 9, h 10]
  decide

theorem velocity_steps_without_wrap (s : SAM2695Synth) (step : Nat)
    (hv : s._velocity ≤ 127) (hstep : step ≤ 128) :
    (s.increaseVelocity step)._velocity = min (s._velocity + step) 127 ∧
    (step ≤ s._velocity → (s.decreaseVelocity step)._velocity = s._velocity - step) ∧
    (s._velocity < step → 0 < step →
      (s.decreaseVelocity step)._velocity = 256 + s._velocity - step) := by
  refine ⟨?_, ?_, ?_⟩
  · rw [increaseVelocity_velocity]
    simp only [u8]
    split_ifs <;> omega
  · intro h
    rw [decreaseVelocity_velocity]
    simp only [u8i]
    omega
  · intro h h0
    rw [decreaseVelocity_velocity]
    simp only [u8i]
    omega

/-! ## Default pitch and velocity -/

/-- C12: in the constructed state with a hardware serial object configured
(stored pitch 60, stored velocity 90), `setNoteOn(0, -1, -1)`, whose 8-bit
arguments are 255 and 255, writes `[0x90, 255, 255]`: the comparison of the
`int` value -1 with the promoted 8-bit argument is never true, so the second
and third byte are the arguments and not the stored pitch and velocity. -/
theorem setNoteOn_ignores_stored_defaults :
    u8i (-1) = 255 ∧
    demoHardware.getPitch = 60 ∧ demoHardware._velocity = 90 ∧
    received (Port.hardware 2) (demoHardware.setNoteOn 0 (u8i (-1)) (u8i (-1))).trace =
      [[0x90, 255, 255]] ∧
    received (Port.hardware 2) (demoHardware.setNoteOn 0 (u8i (-1)) (u8i (-1))).trace ≠
      [[0x90, demoHardware.getPitch, demoHardware._velocity]] := by
  decide

/-! ## All notes off -/

/-- C13: for every 8-bit channel, with a transport configured `setAllNotesOff`
adds to the trace exactly one write per configured serial object, of the three
bytes `[0xB0 | (channel & 0x0F), 0x7B, 0x00]` (control change, controller 123,
value 0), so that every configured serial object receives exactly that
message. -/
theorem setAllNotesOff_writes_controller_123 (s : SAM2695Synth) (channel : Nat)
    (hc : channel < 256) (ht : s._serial ≠ none ∨ s._softSerial ≠ none) :
    MIDI_CMD_CONTROL_CHANGE = 0xB0 ∧ (0x7B : Nat) = 123 ∧
    (s.setAllNotesOff channel).trace =
      s.trace ++ s.ports.map
        (fun q => Event.write q [MIDI_CMD_CONTROL_CHANGE ||| (channel &&& 0x0f), 0x7B, 0x00]) ∧
    ∀ q ∈ s.ports, received q (s.setAllNotesOff channel).trace =
      received q s.trace ++ [[MIDI_CMD_CONTROL_CHANGE ||| (channel &&& 0x0f), 0x7B, 0x00]] := by
  have hc2 := hc
  have key : (s.setAllNotesOff channel).trace =
      s.trace ++ s.ports.map
        (fun q => Event.write q [MIDI_CMD_CONTROL_CHANGE ||| (channel &&& 0x0f), 0x7B, 0x00]) := by
    rw [setAllNotesOff_eq, sendCMD_trace, if_neg (ports_ne_nil s ht), MIDI_CMD_CONTROL_CHANGE,
      (or_low channel).2.2.1]
    simp
  refine ⟨rfl, rfl, key, ?_⟩
  intro q hq
  rw [key, received_append, received_ports s q hq]

theorem setAllNotesOff_writes_controller_123_witness :
    ((9 : Nat) < 256 ∧ (demoBoth._serial ≠ none ∨ demoBoth._softSerial ≠ none)) ∧
    (MIDI_CMD_CONTROL_CHANGE = 0xB0 ∧ (0x7B : Nat) = 123 ∧
    (demoBoth.setAllNotesOff 9).trace =
      demoBoth.trace ++ demoBoth.ports.map
        (fun q => Event.write q [MIDI_CMD_CONTROL_CHANGE ||| (9 &&& 0x0f), 0x7B, 0x00]) ∧
    ∀ q ∈ demoBoth.ports, received q (demoBoth.setAllNotesOff 9).trace =
      received q demoBoth.trace ++ [[MIDI_CMD_CONTROL_CHANGE ||| (9 &&& 0x0f), 0x7B, 0x00]]) :=
  ⟨⟨by decide, Or.inl (by decide)⟩,
    setAllNotesOff_writes_controller_123 demoBoth 9 (by decide) (Or.inl (by decide))⟩

/-! ## Volume messages of the velocity steppers -/

theorem volumeLoop_received (channels : List Nat) (s : SAM2695Synth) (q : Port)
    (hq : q ∈ s.ports) :
    received q (channels.foldl (fun acc i => acc.setVolume i acc._velocity) s).trace =
      received q s.trace ++ channels.map (fun i => [0xB0 + i % 16, 0x07, u8 s._velocity]) := by
  induction channels generalizing s with
  | nil => simp
  | cons c rest ih =>
    rw [List.foldl_cons]
    have hm : s.sameMembers (s.setVolume c s._velocity) := by
      rw [setVolume_eq]; exact sendCMD_sameMembers s _ _
    have hq2 : q ∈ (s.setVolume c s._velocity).ports := by
      rw [setVolume_eq, sendCMD_ports]; exact hq
    rw [ih _ hq2, hm.2.2.2.1, setVolume_eq, sendCMD_received s q hq]
    simp

theorem volumeLoop_onlyWarned (channels : List Nat) (s : SAM2695Synth)
    (h1 : s._serial = none) (h2 : s._softSerial = none) :
    s.onlyWarned (channels.foldl (fun acc i => acc.setVolume i acc._velocity) s)
      channels.length := by
  induction channels generalizing s with
  | nil => exact onlyWarned_refl s
  | cons c rest ih =>
    rw [List.foldl_cons]
    have hstep : s.onlyWarned (s.setVolume c s._velocity) 1 := by
      rw [setVolume_eq]; exact sendCMD_onlyWarned s _ _ h1 h2
    have g1 : (s.setVolume c s._velocity)._serial = none := by rw [hstep.1.1, h1]
    have g2 : (s.setVolume c s._velocity)._softSerial = none := by rw [hstep.1.2.1, h2]
    have hl : (c :: rest).length = 1 + rest.length := by simp [Nat.add_comm]
    rw [hl]
    exact onlyWarned_trans _ _ _ _ _ hstep (ih _ g1 g2)

theorem volumeLoop_sixteen (s2 s : SAM2695Synth) (q : Port) (ht : s2.trace = s.trace)
    (hp : s2.ports = s.ports) (hv : s2._velocity < 256) (hq : q ∈ s.ports) :
    received q
      ((List.range' CHANNEL_0 (CHANNEL_15 + 1 - CHANNEL_0)).foldl
        (fun acc i => acc.setVolume i acc._velocity) s2).trace =
    received q s.trace ++
      (List.range 16).map
        (fun i => [MIDI_CMD_CONTROL_CHANGE ||| i, 0x07,
          ((List.range' CHANNEL_0 (CHANNEL_15 + 1 - CHANNEL_0)).foldl
            (fun acc i => acc.setVolume i acc._velocity) s2)._velocity]) := by
  have hq2 : q ∈ s2.ports := by rw [hp]; exact hq
  rw [volumeLoop_received _ s2 q hq2, (volumeLoop_sameMembers _ s2).2.2.2.1, ht,
    u8_of_lt _ hv]
  rfl

theorem sixteen_messages_bytes (old : List (List Nat)) (v : Nat) :
    ((old ++ (List.range 16).map (fun i => [MIDI_CMD_CONTROL_CHANGE ||| i, 0x07, v])).foldr
      (fun msg acc => msg ++ acc) []).length =
    (old.foldr (fun msg acc => msg ++ acc) []).length + 48 := by
  rw [concat_append, List.length_append]
  rfl

/-- C14, counterexample: in the constructed state, where no serial object is
configured, `increaseVelocity()` and `decreaseVelocity()` write nothing at all:
no volume message reaches any transport. -/
theorem velocity_steps_write_nothing_without_transport :
    (SAM2695Synth.new 120).ports = [] ∧
    writes ((SAM2695Synth.new 120).increaseVelocity 10).trace = [] ∧
    writes ((SAM2695Synth.new 120).decreaseVelocity 10).trace = [] := by
  decide

/-- C14, amended: for every state and every configured serial object,
`increaseVelocity()` and `decreaseVelocity()` each make that serial object
receive exactly 16 volume messages, one per MIDI channel in ascending order
0..15, the i-th being `[0xB0 | i, 0x07, v]` with `v` the stored velocity after
the step, 48 bytes in all; when no serial object is configured they write
nothing. -/
theorem velocity_steps_write_sixteen_volumes (s : SAM2695Synth) (VELOCITY_STEP : Nat)
    (q : Port) (hq : q ∈ s.ports) :
    (received q (s.increaseVelocity VELOCITY_STEP).trace =
      received q s.trace ++
        (List.range 16).map
          (fun i => [MIDI_CMD_CONTROL_CHANGE ||| i, 0x07,
            (s.increaseVelocity VELOCITY_STEP)._velocity]) ∧
     (stream q (s.increaseVelocity VELOCITY_STEP).trace).length =
      (stream q s.trace).length + 48) ∧
    (received q (s.decreaseVelocity VELOCITY_STEP).trace =
      received q s.trace ++
        (List.range 16).map
          (fun i => [MIDI_CMD_CONTROL_CHANGE ||| i, 0x07,
            (s.decreaseVelocity VELOCITY_STEP)._velocity]) ∧
     (stream q (s.decreaseVelocity VELOCITY_STEP).trace).length =
      (stream q s.trace).length + 48) ∧
    ∀ t : SAM2695Synth, t._serial = none → t._softSerial = none →
      writes (t.increaseVelocity VELOCITY_STEP).trace = writes t.trace ∧
      writes (t.decreaseVelocity VELOCITY_STEP).trace = writes t.trace := by
  have hinc : received q (s.increaseVelocity VELOCITY_STEP).trace =
      received q s.trace ++
        (List.range 16).map
          (fun i => [MIDI_CMD_CONTROL_CHANGE ||| i, 0x07,
            (s.increaseVelocity VELOCITY_STEP)._velocity]) := by
    unfold SAM2695Synth.increaseVelocity
    apply volumeLoop_sixteen _ s q _ _ _ hq
    · dsimp only; split_ifs <;> rfl
    · dsimp only; split_ifs <;> rfl
    · dsimp only [u8, VELOCITY_MAX]
      split_ifs
      · show 127 % 256 < 256
        omega
      · show (s._velocity + VELOCITY_STEP) % 256 < 256
        omega
  have hdec : received q (s.decreaseVelocity VELOCITY_STEP).trace =
      received q s.trace ++
        (List.range 16).map
          (fun i => [MIDI_CMD_CONTROL_CHANGE ||| i, 0x07,
            (s.decreaseVelocity VELOCITY_STEP)._velocity]) := by
    unfold SAM2695Synth.decreaseVelocity
    apply volumeLoop_sixteen _ s q _ _ _ hq
    · dsimp only; split_ifs <;> rfl
    · dsimp only; split_ifs <;> rfl
    · dsimp only [u8, u8i, VELOCITY_MIN]
      split_ifs
      · show 0 % 256 < 256
        omega
      · show (((s._velocity : Int) - (VELOCITY_STEP : Int)) % 256).toNat < 256
        omega
  refine ⟨⟨hinc, ?_⟩, ⟨hdec, ?_⟩, ?_⟩
  · unfold stream
    rw [hinc]
    exact sixteen_messages_bytes _ _
  · unfold stream
    rw [hdec]
    exact sixteen_messages_bytes _ _
  · intro t h1 h2
    constructor
    · unfold SAM2695Synth.increaseVelocity
      refine (volumeLoop_onlyWarned _ _ ?_ ?_).2.1.trans ?_
      · dsimp only; split_ifs <;> exact h1
      · dsimp only; split_ifs <;> exact h2
      · dsimp only; split_ifs <;> rfl
    · unfold SAM2695Synth.decreaseVelocity
      refine (volumeLoop_onlyWarned _ _ ?_ ?_).2.1.trans ?_
      · dsimp only; split_ifs <;> exact h1
      · dsimp only; split_ifs <;> exact h2
      · dsimp only; split_ifs <;> rfl

theorem velocity_steps_write_sixteen_volumes_witness :
    Port.software 1 ∈ demoBoth.ports ∧
    ((received (Port.software 1) (demoBoth.increaseVelocity 10).trace =
      received (Port.software 1) demoBoth.trace ++
        (List.range 16).map
          (fun i => [MIDI_CMD_CONTROL_CHANGE ||| i, 0x07,
            (demoBoth.increaseVelocity 10)._velocity]) ∧
     (stream (Port.software 1) (demoBoth.increaseVelocity 10).trace).length =
      (stream (Port.software 1) demoBoth.trace).length + 48) ∧
    (received (Port.software 1) (demoBoth.decreaseVelocity 10).trace =
      received (Port.software 1) demoBoth.trace ++
        (List.range 16).map
          (fun i => [MIDI_CMD_CONTROL_CHANGE ||| i, 0x07,
            (demoBoth.decreaseVelocity 10)._velocity]) ∧
     (stream (Port.software 1) (demoBoth.decreaseVelocity 10).trace).length =
      (stream (Port.software 1) demoBoth.trace).length + 48) ∧
    ∀ t : SAM2695Synth, t._serial = none → t._softSerial = none →
      writes (t.increaseVelocity 10).trace = writes t.trace ∧
      writes (t.decreaseVelocity 10).trace = writes t.trace) :=
  ⟨by decide, velocity_steps_write_sixteen_volumes demoBoth 10 (Port.software 1) (by decide)⟩

/-! ## Playable pitch range -/

/-- C15: for every stored pitch `p` with `NOTE_B0 <= p <= NOTE_C8` (23..108),
`increasePitch()` stores `min(p + 1, NOTE_C8)` and `decreasePitch()` stores
`max(p - 1, NOTE_B0)`: the pitch stays within 23..108 and changes by exactly
one, except at the bound, where it is unchanged. -/
theorem pitch_steps_within_playable_range (s : SAM2695Synth)
    (hlo : NOTE_B0 ≤ s._pitch) (hhi : s._pitch ≤ NOTE_C8) :
    NOTE_B0 = 23 ∧ NOTE_C8 = 108 ∧
    s.increasePitch.getPitch = min (s._pitch + 1) NOTE_C8 ∧
    s.decreasePitch.getPitch = max (s._pitch - 1) NOTE_B0 ∧
    (NOTE_B0 ≤ s.increasePitch.getPitch ∧ s.increasePitch.getPitch ≤ NOTE_C8) ∧
    (NOTE_B0 ≤ s.decreasePitch.getPitch ∧ s.decreasePitch.getPitch ≤ NOTE_C8) ∧
    (s._pitch < NOTE_C8 → s.increasePitch.getPitch = s._pitch + 1) ∧
    (s._pitch = NOTE_C8 → s.increasePitch.getPitch = s._pitch) ∧
    (NOTE_B0 < s._pitch → s.decreasePitch.getPitch + 1 = s._pitch) ∧
    (s._pitch = NOTE_B0 → s.decreasePitch.getPitch = s._pitch) := by
  have hinc : s.increasePitch.getPitch = min (s._pitch + 1) NOTE_C8 := by
    simp only [SAM2695Synth.increasePitch, SAM2695Synth.getPitch, NOTE_C8, u8] at hhi ⊢
    split_ifs with h
    · show 108 % 256 = min (s._pitch + 1) 108
      omega
    · show (s._pitch + 1) % 256 = min (s._pitch + 1) 108
      omega
  have hdec : s.decreasePitch.getPitch = max (s._pitch - 1) NOTE_B0 := by
    simp only [SAM2695Synth.decreasePitch, SAM2695Synth.getPitch, NOTE_B0, NOTE_C8, u8, u8i]
      at hlo hhi ⊢
    split_ifs with h
    · show 23 % 256 = max (s._pitch - 1) 23
      omega
    · show (((s._pitch : Int) - 1) % 256).toNat = max (s._pitch - 1) 23
      omega
  simp only [NOTE_B0, NOTE_C8] at hlo hhi hinc hdec ⊢
  rw [hinc, hdec]
  refine ⟨trivial, trivial, rfl, rfl, ⟨?_, ?_⟩, ⟨?_, ?_⟩, ?_, ?_, ?_, ?_⟩ <;> omega

theorem pitch_steps_within_playable_range_witness :
    (NOTE_B0 ≤ demoHardware._pitch ∧ demoHardware._pitch ≤ NOTE_C8) ∧
    (NOTE_B0 = 23 ∧ NOTE_C8 = 108 ∧
    demoHardware.increasePitch.getPitch = min (demoHardware._pitch + 1) NOTE_C8 ∧
    demoHardware.decreasePitch.getPitch = max (demoHardware._pitch - 1) NOTE_B0 ∧
    (NOTE_B0 ≤ demoHardware.increasePitch.getPitch ∧
      demoHardware.increasePitch.getPitch ≤ NOTE_C8) ∧
    (NOTE_B0 ≤ demoHardware.decreasePitch.getPitch ∧
      demoHardware.decreasePitch.getPitch ≤ NOTE_C8) ∧
    (demoHardware._pitch < NOTE_C8 →
      demoHardware.increasePitch.getPitch = demoHardware._pitch + 1) ∧
    (demoHardware._pitch = NOTE_C8 → demoHardware.increasePitch.getPitch = demoHardware._pitch) ∧
    (NOTE_B0 < demoHardware._pitch →
      demoHardware.decreasePitch.getPitch + 1 = demoHardware._pitch) ∧
    (demoHardware._pitch = NOTE_B0 →
      demoHardware.decreasePitch.getPitch = demoHardware._pitch)) :=
  ⟨⟨by decide, by decide⟩,
    pitch_steps_within_playable_range demoHardware (by decide) (by decide)⟩

/-! ## Frame properties -/

theorem playChord_sameMembers (chord : musicData) (notes : List note) (s : SAM2695Synth) :
    s.sameMembers
      (notes.foldl
        (fun acc n => if n.isOn then acc.setNoteOn chord.channel n.pitch chord.velocity else acc)
        s) := by
  induction notes generalizing s with
  | nil => simp [SAM2695Synth.sameMembers]
  | cons n rest ih =>
    rw [List.foldl_cons]
    cases hn : n.isOn with
    | false =>
      simp only [Bool.false_eq_true, if_false]
      exact ih s
    | true =>
      simp only [if_true]
      refine sameMembers_trans _ _ _ ?_ (ih _)
      rw [setNoteOn_eq]
      exact sendCMD_sameMembers s _ _

/-- C16: for every state, `setNoteOn`, `setNoteOff`, `setAllNotesOff`,
`setVolume`, `setInstrument` and `playChord` leave the stored pitch, velocity
and tempo (and both transport references) unchanged; `setPitch`,
`increasePitch` and `decreasePitch` add nothing to the trace and change no
member but the pitch; `setBpm`, `increaseBpm` and `decreaseBpm` add nothing to
the trace and change no member but the tempo. -/
theorem frame_properties (s : SAM2695Synth)
    (channel pitch velocity level bank value bpm BPM_STEP : Nat) (chord : musicData) :
    s.sameMembers (s.setNoteOn channel pitch velocity) ∧
    s.sameMembers (s.setNoteOff channel pitch velocity) ∧
    s.sameMembers (s.setAllNotesOff channel) ∧
    s.sameMembers (s.setVolume channel level) ∧
    s.sameMembers (s.setInstrument bank channel value) ∧
    s.sameMembers (s.playChord chord) ∧
    s.onlyPitchChanged (s.setPitch pitch) ∧
    s.onlyPitchChanged s.increasePitch ∧
    s.onlyPitchChanged s.decreasePitch ∧
    s.onlyBpmChanged (s.setBpm bpm) ∧
    s.onlyBpmChanged (s.increaseBpm BPM_STEP) ∧
    s.onlyBpmChanged (s.decreaseBpm BPM_STEP) := by
  refine ⟨?_, ?_, ?_, ?_, ?_, ?_, ?_, ?_, ?_, ?_, ?_, ?_⟩
  · rw [setNoteOn_eq]; exact sendCMD_sameMembers s _ _
  · rw [setNoteOff_eq]; exact sendCMD_sameMembers s _ _
  · rw [setAllNotesOff_eq]; exact sendCMD_sameMembers s _ _
  · rw [setVolume_eq]; exact sendCMD_sameMembers s _ _
  · rw [setInstrument_eq]
    exact sameMembers_trans _ _ _ (sendCMD_sameMembers s _ _) (sendCMD_sameMembers _ _ _)
  · exact playChord_sameMembers chord chord.notes s
  · exact ⟨rfl, rfl, rfl, rfl, rfl⟩
  · unfold SAM2695Synth.increasePitch
    dsimp only
    split_ifs <;> exact ⟨rfl, rfl, rfl, rfl, rfl⟩
  · unfold SAM2695Synth.decreasePitch
    dsimp only
    split_ifs <;> exact ⟨rfl, rfl, rfl, rfl, rfl⟩
  · exact ⟨rfl, rfl, rfl, rfl, rfl⟩
  · exact ⟨rfl, rfl, rfl, rfl, rfl⟩
  · exact ⟨rfl, rfl, rfl, rfl, rfl⟩

/-! ## Tempo stepping -/

/-- C17: with `BPM_STEP` a parameter `k`, for every `k` in 1..15 and every
stored tempo `b` in 40..240, `increaseBpm()` yields `min(b + k, 240)` and
`decreaseBpm()` yields `max(b - k, 40)` over the integers, although the sum and
the difference are truncated to 8 bits on the call of `setBpm`. For `k` = 16
this fails: from `b` = 240, `increaseBpm()` yields 40 and not 240. -/
theorem bpm_steps_saturate (s : SAM2695Synth) (BPM_STEP : Nat)
    (h1 : 1 ≤ BPM_STEP) (h15 : BPM_STEP ≤ 15) (hlo : 40 ≤ s._bpm) (hhi : s._bpm ≤ 240) :
    (s.increaseBpm BPM_STEP).getBpm = min (s._bpm + BPM_STEP) 240 ∧
    ((s.decreaseBpm BPM_STEP).getBpm : Int) = max ((s._bpm : Int) - (BPM_STEP : Int)) 40 ∧
    (({ s with _bpm := 240 } : SAM2695Synth).increaseBpm 16).getBpm = 40 ∧
    min (240 + 16) 240 ≠ 40 := by
  refine ⟨?_, ?_, ?_, by decide⟩
  · simp only [SAM2695Synth.increaseBpm, SAM2695Synth.setBpm, SAM2695Synth.getBpm, BPM_MIN,
      BPM_MAX, u8, u8i]
    split_ifs <;> omega
  · simp only [SAM2695Synth.decreaseBpm, SAM2695Synth.setBpm, SAM2695Synth.getBpm, BPM_MIN,
      BPM_MAX, u8, u8i]
    split_ifs <;> omega
  · simp only [SAM2695Synth.increaseBpm, SAM2695Synth.setBpm, SAM2695Synth.getBpm, BPM_MIN,
      BPM_MAX, u8, u8i]
    decide

theorem bpm_steps_saturate_witness :
    ((1 : Nat) ≤ 15 ∧ (15 : Nat) ≤ 15 ∧ 40 ≤ begunBoth._bpm ∧ begunBoth._bpm ≤ 240) ∧
    ((begunBoth.increaseBpm 15).getBpm = min (begunBoth._bpm + 15) 240 ∧
    ((begunBoth.decreaseBpm 15).getBpm : Int) = max ((begunBoth._bpm : Int) - ((15 : Nat) : Int)) 40 ∧
    (({ begunBoth with _bpm := 240 } : SAM2695Synth).increaseBpm 16).getBpm = 40 ∧
    min (240 + 16) 240 ≠ 40) :=
  ⟨⟨by decide, by decide, by decide, by decide⟩,
    bpm_steps_saturate begunBoth 15 (by decide) (by decide) (by decide) (by decide)⟩
